import Mathlib

/-!
Shallow embedding of `dronereg.py`, a one-shot batch tool that extracts drone
(rotorcraft + electric engine) records from the FAA aircraft registration
database and writes a normalized CSV report.

The embedding works at the level the claims are stated at:
* member files are lists of CSV rows (each row a list of field strings); the
  CSV splitting itself is below the abstraction level of every claim;
* Python generators that can raise are modelled as `Option`-returning
  functions (`none` = an exception propagates and aborts the run);
* Python's `time.strptime(dt, '%Y%m%d')` is modelled faithfully, including the
  lenient one-or-two digit month/day alternations of CPython's `_strptime`
  regexes, the first-match-then-leftover-check behaviour of `re.match`, and
  the calendar validation performed via `datetime.date`;
* `time.strftime('%Y-%m-%d', ...)` is modelled as on Linux/glibc: `%Y`
  unpadded decimal, `%m`/`%d` zero-padded to two digits;
* characters are ASCII as in the FAA data; `str.strip()` is modelled with the
  six ASCII whitespace characters and `str.lower()` with the A-Z -> a-z map.
-/

namespace Dronereg

/-! ## Python string primitives used by the source -/

/-- The whitespace characters stripped by Python `str.strip()` (ASCII part). -/
def pyWhitespace : List Char := [' ', '\t', '\n', '\r', '\x0b', '\x0c']

def isPySpace (c : Char) : Bool := pyWhitespace.contains c

/-- Python `str.strip()` on a character list: drop whitespace from both ends. -/
def pyStripList (l : List Char) : List Char :=
  ((l.dropWhile isPySpace).reverse.dropWhile isPySpace).reverse

/-- Python `str.strip()`. -/
def pyStrip (s : String) : String := String.mk (pyStripList s.toList)

/-- `ReleasableAircraft._tidy_header`: `text.strip().lower()`, then
`re.sub(r'\(|\)', '', text)`, then `re.sub(r'-| ', '_', text)`. -/
def tidy_header (text : String) : String :=
  String.mk
    ((((pyStripList text.toList).map Char.toLower).filter
        (fun c => !(c == '(' || c == ')'))).map
      (fun c => if c == '-' || c == ' ' then '_' else c))

/-! ## `ReleasableAircraft.format_zip`

`return f'{zip[:5]}-{zip[5:]}' if (zip and len(zip) == 9) else zip`.
`none` models Python `None`; the function never raises. -/

def format_zip (zip : Option String) : Option String :=
  match zip with
  | none => none
  | some z => if z ≠ "" ∧ z.length = 9 then some (z.take 5 ++ "-" ++ z.drop 5) else some z

/-! ## `ReleasableAircraft.format_date`

`return time.strftime('%Y-%m-%d', time.strptime(dt, '%Y%m%d')) if dt else ''`.

CPython's `_strptime` compiles `'%Y%m%d'` to the regex
`(\d\d\d\d)(1[0-2]|0[1-9]|[1-9])(3[01]|[12]\d|0[1-9]|[1-9])`, takes the first
match found by the usual depth-first alternation order of `re.match`, raises
`ValueError` if there is no match or if unconverted data remains after the
match, and finally validates the parsed triple by constructing
`datetime.date(year, month, day)` (which requires `1 <= year <= 9999` and a
day that exists in the given month).  A result of `none` models a raised
`ValueError` (the `DateFormatError` of the design). -/

def digitVal (c : Char) : Nat := c.toNat - 48

/-- All parses of the `%m` alternation `1[0-2]|0[1-9]|[1-9]`, in the order the
regex engine tries them: each element is (month value, remaining input). -/
def altsM (cs : List Char) : List (Nat × List Char) :=
  (match cs with
   | c1 :: c2 :: rest =>
       (if c1 = '1' ∧ (c2 = '0' ∨ c2 = '1' ∨ c2 = '2') then [(10 + digitVal c2, rest)] else []) ++
       (if c1 = '0' ∧ c2.isDigit ∧ c2 ≠ '0' then [(digitVal c2, rest)] else [])
   | _ => []) ++
  (match cs with
   | c1 :: rest => if c1.isDigit ∧ c1 ≠ '0' then [(digitVal c1, rest)] else []
   | [] => [])

/-- All parses of the `%d` alternation `3[01]|[12]\d|0[1-9]|[1-9]`, in regex
order: each element is (day value, remaining input). -/
def altsD (cs : List Char) : List (Nat × List Char) :=
  (match cs with
   | c1 :: c2 :: rest =>
       (if c1 = '3' ∧ (c2 = '0' ∨ c2 = '1') then [(30 + digitVal c2, rest)] else []) ++
       (if (c1 = '1' ∨ c1 = '2') ∧ c2.isDigit then [(10 * digitVal c1 + digitVal c2, rest)] else []) ++
       (if c1 = '0' ∧ c2.isDigit ∧ c2 ≠ '0' then [(digitVal c2, rest)] else [])
   | _ => []) ++
  (match cs with
   | c1 :: rest => if c1.isDigit ∧ c1 ≠ '0' then [(digitVal c1, rest)] else []
   | [] => [])

/-- The first match of `\d\d\d\d%m%d` found by `re.match`'s depth-first
backtracking: four digits for the year, then month alternatives in order, and
for each month alternative the day alternatives in order (nothing follows the
day, so the first day parse under the first workable month parse wins).
Returns the parsed triple and the unconsumed remainder of the input. -/
def matchYmd (cs : List Char) : Option (Nat × Nat × Nat × List Char) :=
  match cs with
  | y1 :: y2 :: y3 :: y4 :: rest =>
      if y1.isDigit ∧ y2.isDigit ∧ y3.isDigit ∧ y4.isDigit then
        let y := ((digitVal y1 * 10 + digitVal y2) * 10 + digitVal y3) * 10 + digitVal y4
        (altsM rest).findSome? (fun md =>
          ((altsD md.2).head?).map (fun dd => (y, md.1, dd.1, dd.2)))
      else none
  | _ => none

def isLeapYear (y : Nat) : Bool := y % 4 = 0 && (y % 100 ≠ 0 || y % 400 = 0)

def daysInMonth (y m : Nat) : Nat :=
  if m = 2 then (if isLeapYear y then 29 else 28)
  else if m = 4 ∨ m = 6 ∨ m = 9 ∨ m = 11 then 30
  else 31

/-- The validation performed by `datetime.date(year, month, day)` inside
`_strptime` (month bounds are already guaranteed by the regex). -/
def validDate (y m d : Nat) : Bool :=
  1 ≤ y && y ≤ 9999 && 1 ≤ m && m ≤ 12 && 1 ≤ d && d ≤ daysInMonth y m

/-- `time.strptime(s, '%Y%m%d')`: `none` models a raised `ValueError`
(no regex match, unconverted data remaining, or an invalid calendar date). -/
def strptimeYmd (s : String) : Option (Nat × Nat × Nat) :=
  match matchYmd s.toList with
  | some (y, m, d, []) => if validDate y m d then some (y, m, d) else none
  | _ => none

def pad2 (n : Nat) : String := if n < 10 then "0" ++ toString n else toString n

/-- `time.strftime('%Y-%m-%d', t)` on Linux/glibc: `%Y` unpadded, `%m` and
`%d` zero-padded to two digits. -/
def strftimeYmd (y m d : Nat) : String := toString y ++ "-" ++ pad2 m ++ "-" ++ pad2 d

/-- `ReleasableAircraft.format_date`.  The argument models `dt: str | None`;
`none` as a result models a propagated `ValueError` from `strptime`. -/
def format_date (dt : Option String) : Option String :=
  match dt with
  | none => some ""
  | some s =>
      if s = "" then some ""
      else (strptimeYmd s).map (fun ymd => strftimeYmd ymd.1 ymd.2.1 ymd.2.2)

/-! ## The drone predicate -/

def DRONE_AIRCRAFT_TYPE : String := "6"

def DRONE_ENGINE_TYPE : String := "10"

/-- `is_drone(acft_type, eng_type)`. -/
def is_drone (acft_type eng_type : String) : Bool :=
  acft_type == DRONE_AIRCRAFT_TYPE && eng_type == DRONE_ENGINE_TYPE

/-! ## The static translation tables

`ReleasableAircraft.REGISTRANT_TYPES` and `ReleasableAircraft.STATUS_CODES`,
transcribed verbatim.  A Python dict literal with distinct keys is modelled as
an association list; `d.get(k, '')` becomes `dictGet d k ""`. -/

def REGISTRANT_TYPES : List (String × String) := [
  ("1", "Individual"),
  ("2", "Partnership"),
  ("3", "Corporation"),
  ("4", "Co-Owned"),
  ("5", "Government"),
  ("7", "LLC"),
  ("8", "Non Citizen Corporation"),
  ("9", "Non Citizen Co-Owned")]

def STATUS_CODES : List (String × String) := [
  ("1", "Triennial Aircraft Registration form was returned by the Post Office as undeliverable"),
  ("2", "N-Number Assigned but has not yet been registered"),
  ("3", "N-Number assigned as a Non Type Certificated aircraft - but has not yet been registered"),
  ("4", "N-Number assigned as import - but has not yet been registered"),
  ("5", "Reserved N-Number"),
  ("6", "Administratively canceled"),
  ("7", "Sale reported"),
  ("8", "A second attempt has been made at mailing a Triennial Aircraft Registration form to the owner with no response"),
  ("9", "Certificate of Registration has been revoked"),
  ("10", "N-Number assigned but has not been registered and is pending cancellation"),
  ("11", "N-Number assigned as a Non Type Certificated (Amateur) but has not been registered that is pending cancellation"),
  ("12", "N-Number assigned as import but has not been registered that is pending cancellation"),
  ("13", "Registration Expired"),
  ("14", "First Notice for ReRegistration/Renewal"),
  ("15", "Second Notice for ReRegistration/Renewal"),
  ("16", "Registration Expired - Pending Cancellation"),
  ("17", "Sale Reported - Pending Cancellation"),
  ("18", "Sale Reported - Canceled"),
  ("19", "Registration Pending - Pending Cancellation"),
  ("20", "Registration Pending - Canceled"),
  ("21", "Revoked - Pending Cancellation"),
  ("22", "Revoked - Canceled"),
  ("23", "Expired Dealer (Pending Cancellation)"),
  ("24", "Third Notice for ReRegistration/Renewal"),
  ("25", "First Notice for Registration Renewal"),
  ("26", "Second Notice for Registration Renewal"),
  ("27", "Registration Expired"),
  ("28", "Third Notice for Registration Renewal"),
  ("29", "Registration Expired - Pending Cancellation"),
  ("A", "The Triennial Aircraft Registration form was mailed and has not been returned by the Post Office"),
  ("D", "Expired Dealer"),
  ("E", "The Certificate of Aircraft Registration was revoked by enforcement action"),
  ("M", "Aircraft registered to the manufacturer under their Dealer Certificate"),
  ("N", "Non-citizen Corporations which have not returned their flight hour reports"),
  ("R", "Registration pending"),
  ("S", "Second Triennial Aircraft Registration Form has been mailed and has not been returned by the Post Office "),
  ("T", "Valid - from Trainee"),
  ("V", "Valid"),
  ("X", "Enforcement Letter"),
  ("Z", "Permanent Reserved"),
  ("", "Invalid")]

/-- Python `dict.get(key, default)` over an association-list model of a dict
literal whose keys are distinct. -/
def dictGet (d : List (String × String)) (key default : String) : String :=
  (d.lookup key).getD default

/-! ## `ReleasableAircraft.read_file`

The generator tidies the header (dropping its last column), then for each
data row drops the last column, strips every field, and yields the row as a
record when its field count equals the header's field count.  A member file is
modelled as the list of CSV rows the `csv.reader` produces; a yielded record
is modelled as its list of field values (in header order).  If the member has
no rows at all, `next(reader)` raises `StopIteration` inside the generator,
which Python (PEP 479) turns into a fatal `RuntimeError` at the first element
requested: modelled by `none`. -/

def bindRows (headerLine : List String) (rowLines : List (List String)) : List (List String) :=
  let header := headerLine.dropLast.map tidy_header
  rowLines.filterMap (fun r =>
    let dat := r.dropLast.map pyStrip
    if dat.length = header.length then some dat else none)

def read_file (tableLines : List (List String)) : Option (List (List String)) :=
  match tableLines with
  | [] => none
  | headerLine :: rowLines => some (bindRows headerLine rowLines)

/-! ## Record shapes

The named-tuple attributes that `parse_drone_data` reads from each of the
three tables, as structures.  Every field holds the stripped string from the
corresponding CSV column. -/

/-- A record of `ACFTREF.txt` (the attributes accessed by the source). -/
structure AcftRef where
  code : String
  mfr : String
  model : String
  no_eng : String
  ac_weight : String
  type_acft : String
  type_eng : String
deriving DecidableEq

/-- A record of `MASTER.txt` (the attributes accessed by the source). -/
structure Master where
  n_number : String
  serial_number : String
  mode_s_code : String
  mode_s_code_hex : String
  mfr_mdl_code : String
  type_aircraft : String
  type_engine : String
  type_registrant : String
  city : String
  state : String
  zip_code : String
  status_code : String
  cert_issue_date : String
  air_worth_date : String
  last_action_date : String
deriving DecidableEq

/-- A record of `DEREG.txt` (the attributes accessed by the source). -/
structure Dereg where
  n_number : String
  serial_number : String
  mode_s_code : String
  mode_s_code_hex : String
  mfr_mdl_code : String
  indicator_group : String
  city_mail : String
  state_abbrev_mail : String
  zip_code_mail : String
  status_code : String
  cert_issue_date : String
  air_worth_date : String
  last_act_date : String
  cancel_date : String
deriving DecidableEq

/-! ## `parse_drone_data` -/

/-- One insertion into the dict comprehension's dict, modelled as a lookup
function: a later insertion of the same key overwrites the earlier one. -/
def dictInsert (d : String → Option AcftRef) (k : String) (v : AcftRef) :
    String → Option AcftRef :=
  fun q => if q = k then some v else d q

/-- `mfr_mdls = {mm.code: mm for mm in ra.read_file('ACFTREF.txt')
                 if is_drone(mm.type_acft, mm.type_eng)}`,
built once, before either registration table is streamed. -/
def build_mfr_mdls (recs : List AcftRef) : String → Option AcftRef :=
  recs.foldl
    (fun d mm => if is_drone mm.type_acft mm.type_eng then dictInsert d mm.code mm else d)
    (fun _ => none)

/-- The output row written for a `MASTER.txt` record `ac` joined with its
reference entry `mfr_mdl`; `none` models a `ValueError` raised by one of the
`format_date` calls aborting the run.  The final column (cancel date) is the
literal empty string. -/
def projectMasterRow (mfr_mdl : AcftRef) (ac : Master) : Option (List String) :=
  match format_zip (some ac.zip_code), format_date (some ac.cert_issue_date),
        format_date (some ac.air_worth_date), format_date (some ac.last_action_date) with
  | some zipf, some cert, some airw, some lastAct =>
      some [ac.n_number, ac.serial_number, ac.mode_s_code, ac.mode_s_code_hex,
            ac.mfr_mdl_code, mfr_mdl.mfr, mfr_mdl.model, mfr_mdl.no_eng, mfr_mdl.ac_weight,
            dictGet REGISTRANT_TYPES ac.type_registrant "", ac.city, ac.state,
            zipf, dictGet STATUS_CODES ac.status_code "",
            cert, airw, lastAct, ""]
  | _, _, _, _ => none

/-- The `MASTER.txt` loop: skip records failing `is_drone` on the record's own
type fields, look the rest up in `mfr_mdls`, emit a joined row on a hit, skip
silently on a miss.  `none` models a fatal date-format error. -/
def processMaster (mfr_mdls : String → Option AcftRef) : List Master → Option (List (List String))
  | [] => some []
  | ac :: rest =>
      if is_drone ac.type_aircraft ac.type_engine then
        match mfr_mdls ac.mfr_mdl_code with
        | some mm =>
            match projectMasterRow mm ac, processMaster mfr_mdls rest with
            | some row, some rows => some (row :: rows)
            | _, _ => none
        | none => processMaster mfr_mdls rest
      else processMaster mfr_mdls rest

/-- The output row written for a `DEREG.txt` record `ac` joined with its
reference entry `mfr_mdl`; the final column is `format_date(ac.cancel_date)`. -/
def projectDeregRow (mfr_mdl : AcftRef) (ac : Dereg) : Option (List String) :=
  match format_zip (some ac.zip_code_mail), format_date (some ac.cert_issue_date),
        format_date (some ac.air_worth_date), format_date (some ac.last_act_date),
        format_date (some ac.cancel_date) with
  | some zipf, some cert, some airw, some lastAct, some cancel =>
      some [ac.n_number, ac.serial_number, ac.mode_s_code, ac.mode_s_code_hex,
            ac.mfr_mdl_code, mfr_mdl.mfr, mfr_mdl.model, mfr_mdl.no_eng, mfr_mdl.ac_weight,
            dictGet REGISTRANT_TYPES ac.indicator_group "", ac.city_mail, ac.state_abbrev_mail,
            zipf, dictGet STATUS_CODES ac.status_code "",
            cert, airw, lastAct, cancel]
  | _, _, _, _, _ => none

/-- The `DEREG.txt` loop: no drone predicate is applied to the record; every
record is looked up in `mfr_mdls`, a hit emits a joined row, a miss is skipped
silently.  `none` models a fatal date-format error. -/
def processDereg (mfr_mdls : String → Option AcftRef) : List Dereg → Option (List (List String))
  | [] => some []
  | ac :: rest =>
      match mfr_mdls ac.mfr_mdl_code with
      | some mm =>
          match projectDeregRow mm ac, processDereg mfr_mdls rest with
          | some row, some rows => some (row :: rows)
          | _, _ => none
      | none => processDereg mfr_mdls rest

/-- `parse_drone_data`, at record level: build the drone-filtered reference
map from `ACFTREF.txt`, then stream `MASTER.txt` fully, then `DEREG.txt`
fully; the result is the list of emitted data rows in emission order. -/
def parse_drone_data (acftref : List AcftRef) (master : List Master) (dereg : List Dereg) :
    Option (List (List String)) :=
  let mfr_mdls := build_mfr_mdls acftref
  match processMaster mfr_mdls master, processDereg mfr_mdls dereg with
  | some masterRows, some deregRows => some (masterRows ++ deregRows)
  | _, _ => none

/-! ## Theorems -/

/-- C1 counterexample: the 7-digit string `"2023011"` does not raise a
`DateFormatError`; `strptime`'s one-digit month/day alternatives match it and
`format_date` returns the coerced value `"2023-01-01"`. -/
theorem format_date_seven_digit_coerced :
    format_date (some "2023011") = some "2023-01-01" ∧
    format_date (some "2023011") ≠ none := by
  refine ⟨by decide, by decide⟩

/-- C1 (amended): `format_date` maps `"20230115"` to `"2023-01-15"`, and the
empty string and the absent value to the empty string; but malformed input is
not uniformly a hard error: the 7-digit string `"2023011"` is parsed leniently
to `"2023-01-01"`, and `format_date` raises a `DateFormatError` exactly on the
non-empty inputs that `strptime('%Y%m%d')` rejects, such as `"ABCDEFGH"` (no
match) or `"20230229"` (invalid calendar date). -/
theorem format_date_spec :
    format_date (some "20230115") = some "2023-01-15" ∧
    format_date (some "") = some "" ∧
    format_date none = some "" ∧
    format_date (some "2023011") = some "2023-01-01" ∧
    format_date (some "ABCDEFGH") = none ∧
    format_date (some "20230229") = none ∧
    (∀ s : String, s ≠ "" → (format_date (some s) = none ↔ strptimeYmd s = none)) := by
  refine ⟨by decide, by decide, by decide, by decide, by decide, by decide, ?_⟩
  intro s hs
  simp only [format_date, if_neg hs]
  exact Option.map_eq_none'

/-- C1 witness: the characterization of raising, applied at `"ABCDEFGH"`. -/
theorem format_date_spec_witness :
    format_date (some "ABCDEFGH") = none ↔ strptimeYmd "ABCDEFGH" = none :=
  format_date_spec.2.2.2.2.2.2 "ABCDEFGH" (by decide)

/-- C7: the drone predicate holds exactly when the airframe-type code is the
string `"6"` and the engine-type code is the string `"10"`; prefix matches
such as `"6x"` or `"100"` fail. -/
theorem is_drone_exact :
    (∀ acft_type eng_type,
        is_drone acft_type eng_type = true ↔ acft_type = "6" ∧ eng_type = "10") ∧
    is_drone "6x" "10" = false ∧ is_drone "6" "100" = false := by
  refine ⟨?_, by decide, by decide⟩
  intro a e
  simp [is_drone, DRONE_AIRCRAFT_TYPE, DRONE_ENGINE_TYPE]

/-- C7 witness: the characterization applied at the drone pair. -/
theorem is_drone_exact_witness : is_drone "6" "10" = true :=
  (is_drone_exact.1 "6" "10").mpr ⟨rfl, rfl⟩

/-- C8: `format_zip` reformats a string input as `XXXXX-XXXX` when and only
when its length is exactly 9; any other string is returned unchanged, and the
absent value is returned unchanged. -/
theorem format_zip_spec :
    format_zip none = none ∧
    format_zip (some "123456789") = some "12345-6789" ∧
    format_zip (some "12345") = some "12345" ∧
    format_zip (some "") = some "" ∧
    (∀ z : String, z.length = 9 →
        format_zip (some z) = some (z.take 5 ++ "-" ++ z.drop 5)) ∧
    (∀ z : String, z.length ≠ 9 → format_zip (some z) = some z) := by
  refine ⟨rfl, by decide, by decide, by decide, ?_, ?_⟩
  · intro z hz
    have hz0 : z ≠ "" := by
      intro h
      subst h
      exact absurd hz (by decide)
    simp [format_zip, hz, hz0]
  · intro z hz
    simp [format_zip, hz]

/-- C8 witness: both general cases applied at concrete inputs. -/
theorem format_zip_spec_witness :
    format_zip (some "987654321") = some "98765-4321" ∧
    format_zip (some "1234") = some "1234" := by
  constructor
  · have h := format_zip_spec.2.2.2.2.1 "987654321" (by decide)
    rw [h]
    decide
  · exact format_zip_spec.2.2.2.2.2 "1234" (by decide)

/-- C10: a member file with no lines at all makes `read_file` fail at the
first element (the header read raises inside the generator) instead of
yielding an empty record sequence, while a member with only a header line
yields zero records without error. -/
theorem read_file_empty_member :
    read_file [] = none ∧ read_file [] ≠ some [] ∧
    (∀ headerLine : List String, read_file [headerLine] = some []) := by
  refine ⟨rfl, by simp [read_file], ?_⟩
  intro hl
  rfl

/-- C10 witness: the header-only case applied at a concrete header. -/
theorem read_file_empty_member_witness : read_file [["CODE", "MFR", ""]] = some [] :=
  read_file_empty_member.2.2 ["CODE", "MFR", ""]

/-- A `filterMap` whose function is an if-then-else between `some ∘ g` and
`none` is a `filter` followed by a `map`. -/
theorem filterMap_ite_eq_map_filter {α β : Type} (p : α → Prop) [DecidablePred p]
    (g : α → β) (l : List α) :
    l.filterMap (fun a => if p a then some (g a) else none) =
      (l.filter (fun a => decide (p a))).map g := by
  induction l with
  | nil => rfl
  | cons a l ih =>
      rw [List.filterMap_cons, List.filter_cons]
      by_cases h : p a
      · simp only [if_pos h, decide_eq_true h, if_pos, List.map_cons, ih]
      · simp only [if_neg h, ih]
        rw [if_neg]
        simp [h]

/-- C5: a data row yields a record exactly when its field count after
dropping the trailing column equals the header's field count after the same
dropping; mismatched rows are dropped without any error, and a yielded record
is the row's remaining fields, each trimmed. -/
theorem bindRows_spec (headerLine : List String) (rowLines : List (List String)) :
    bindRows headerLine rowLines =
      (rowLines.filter (fun r => r.dropLast.length = headerLine.dropLast.length)).map
        (fun r => r.dropLast.map pyStrip) := by
  have h2 : bindRows headerLine rowLines =
      (rowLines.filter (fun r =>
        decide ((r.dropLast.map pyStrip).length = (headerLine.dropLast.map tidy_header).length))).map
        (fun r => r.dropLast.map pyStrip) :=
    filterMap_ite_eq_map_filter
      (fun r : List String =>
        (r.dropLast.map pyStrip).length = (headerLine.dropLast.map tidy_header).length)
      (fun r : List String => r.dropLast.map pyStrip) rowLines
  rw [h2]
  congr 1
  apply List.filter_congr
  intro a _
  simp [List.length_map]

/-- C5 witness: a matching row is trimmed and kept; a row with one extra
field and a row with one missing field are both dropped. -/
theorem bindRows_spec_witness :
    bindRows [" CODE ", "MFR", ""]
        [["a ", " b", ""], ["c", "d", "e", ""], ["f", ""]] = [["a", "b"]] := by
  rw [bindRows_spec]
  decide

/-- C6 counterexample: the registrant-type label stored for code `"8"` is
`"Non Citizen Corporation"` (no hyphen), not the claimed
`"Non-Citizen Corporation"`. -/
theorem registrant_label_counterexample :
    dictGet REGISTRANT_TYPES "8" "" = "Non Citizen Corporation" ∧
    dictGet REGISTRANT_TYPES "8" "" ≠ "Non-Citizen Corporation" :=
  ⟨by decide, by decide⟩

/-- C6 (amended): the registrant-type translation maps exactly the 8 known
codes to Individual, Partnership, Corporation, Co-Owned, Government, LLC,
Non Citizen Corporation and Non Citizen Co-Owned (the two non-citizen labels
are spelled without a hyphen); the status translation maps the empty-string
code to `"Invalid"`; and any code absent from either mapping translates to
the empty label, never an error. -/
theorem translation_tables_spec :
    REGISTRANT_TYPES.map Prod.fst = ["1", "2", "3", "4", "5", "7", "8", "9"] ∧
    dictGet REGISTRANT_TYPES "1" "" = "Individual" ∧
    dictGet REGISTRANT_TYPES "2" "" = "Partnership" ∧
    dictGet REGISTRANT_TYPES "3" "" = "Corporation" ∧
    dictGet REGISTRANT_TYPES "4" "" = "Co-Owned" ∧
    dictGet REGISTRANT_TYPES "5" "" = "Government" ∧
    dictGet REGISTRANT_TYPES "7" "" = "LLC" ∧
    dictGet REGISTRANT_TYPES "8" "" = "Non Citizen Corporation" ∧
    dictGet REGISTRANT_TYPES "9" "" = "Non Citizen Co-Owned" ∧
    dictGet STATUS_CODES "" "" = "Invalid" ∧
    (∀ c : String, c ∉ REGISTRANT_TYPES.map Prod.fst → dictGet REGISTRANT_TYPES c "" = "") ∧
    (∀ c : String, c ∉ STATUS_CODES.map Prod.fst → dictGet STATUS_CODES c "" = "") := by
  refine ⟨by decide, by decide, by decide, by decide, by decide, by decide, by decide,
    by decide, by decide, by decide, ?_, ?_⟩
  · intro c hc
    have hl : REGISTRANT_TYPES.lookup c = none := by
      rw [List.lookup_eq_none_iff]
      intro p hp
      simp only [bne_iff_ne, ne_eq]
      intro h
      exact hc (h ▸ List.mem_map_of_mem Prod.fst hp)
    simp [dictGet, hl]
  · intro c hc
    have hl : STATUS_CODES.lookup c = none := by
      rw [List.lookup_eq_none_iff]
      intro p hp
      simp only [bne_iff_ne, ne_eq]
      intro h
      exact hc (h ▸ List.mem_map_of_mem Prod.fst hp)
    simp [dictGet, hl]

/-- C6 witness: unknown codes (`"6"` is not a registrant-type code, `"Q"` is
not a status code) translate to the empty label. -/
theorem translation_tables_spec_witness :
    dictGet REGISTRANT_TYPES "6" "" = "" ∧ dictGet STATUS_CODES "Q" "" = "" :=
  ⟨translation_tables_spec.2.2.2.2.2.2.2.2.2.2.1 "6" (by decide),
   translation_tables_spec.2.2.2.2.2.2.2.2.2.2.2 "Q" (by decide)⟩

/-- Lower-casing (A-Z to a-z) maps no character into or out of the stripped
whitespace set: helper for the two characters of a case split. -/
theorem isPySpace_char_range (n : Nat) (h1 : 65 ≤ n) (h2 : n ≤ 90) :
    isPySpace (Char.ofNat (n + 32)) = false ∧ isPySpace (Char.ofNat n) = false := by
  interval_cases n <;> exact ⟨by decide, by decide⟩

theorem isPySpace_toLower (c : Char) : isPySpace (Char.toLower c) = isPySpace c := by
  simp only [Char.toLower]
  by_cases h : Char.toNat c ≥ 65 ∧ Char.toNat c ≤ 90
  · rw [if_pos h]
    have h3 := isPySpace_char_range c.toNat h.1 h.2
    have h4 : isPySpace c = false := by
      have h5 := h3.2
      rwa [Char.ofNat_toNat] at h5
    rw [h4, h3.1]
  · rw [if_neg h]

theorem comp_isPySpace_toLower : isPySpace ∘ Char.toLower = isPySpace :=
  funext isPySpace_toLower

/-- Stripping commutes with lower-casing. -/
theorem pyStripList_map_toLower (l : List Char) :
    pyStripList (l.map Char.toLower) = (pyStripList l).map Char.toLower := by
  unfold pyStripList
  rw [List.dropWhile_map, comp_isPySpace_toLower, ← List.map_reverse,
    List.dropWhile_map, comp_isPySpace_toLower, ← List.map_reverse]

/-- Modelled on the spec's own description, in its listed order: lower-case
the raw token, strip surrounding whitespace, remove parenthesis characters,
replace every space and hyphen by an underscore. -/
def tidyHeaderToken_spec (raw : String) : String :=
  String.mk
    (((pyStripList (raw.toList.map Char.toLower)).filter
        (fun c => !(c == '(' || c == ')'))).map
      (fun c => if c == '-' || c == ' ' then '_' else c))

/-- C9: the header tidier agrees with the spec's description (lower-case,
strip, remove parentheses, replace spaces and hyphens with underscores), and
maps `"TYPE-REGISTRANT (Sub)"` to `"type_registrant_sub"`. -/
theorem tidy_header_spec :
    tidy_header "TYPE-REGISTRANT (Sub)" = "type_registrant_sub" ∧
    (∀ raw : String, tidy_header raw = tidyHeaderToken_spec raw) := by
  refine ⟨by decide, ?_⟩
  intro raw
  unfold tidy_header tidyHeaderToken_spec
  rw [pyStripList_map_toLower]

/-- C9 witness: the spec agreement applied at a concrete raw header token. -/
theorem tidy_header_spec_witness :
    tidy_header " No-Eng (COUNT) " = tidyHeaderToken_spec " No-Eng (COUNT) " :=
  tidy_header_spec.2 " No-Eng (COUNT) "

/-- Unrolling the dict-comprehension fold from an arbitrary starting dict. -/
theorem build_mfr_mdls_aux (recs : List AcftRef) (d : String → Option AcftRef) (code : String) :
    (recs.foldl
        (fun d mm => if is_drone mm.type_acft mm.type_eng then dictInsert d mm.code mm else d)
        d) code =
      (((recs.filter (fun mm => is_drone mm.type_acft mm.type_eng)).reverse.find?
          (fun mm => mm.code == code)).or (d code)) := by
  induction recs generalizing d with
  | nil => rfl
  | cons mm rest ih =>
      rw [List.foldl_cons, List.filter_cons]
      by_cases h : is_drone mm.type_acft mm.type_eng
      · rw [if_pos h, if_pos h, ih, List.reverse_cons, List.find?_append]
        cases hf : (rest.filter (fun mm => is_drone mm.type_acft mm.type_eng)).reverse.find?
            (fun mm => mm.code == code) with
        | some v => rfl
        | none =>
            show dictInsert d mm.code mm code = (List.find? (fun mm => mm.code == code) [mm]).or (d code)
            unfold dictInsert
            by_cases hc : code = mm.code
            · simp [List.find?, hc]
            · have hb : (mm.code == code) = false := by
                simp only [beq_eq_false_iff_ne, ne_eq]
                exact fun he => hc he.symm
              simp [List.find?, hb, hc]
      · rw [if_neg h, if_neg h, ih]

/-- C4: the model-reference map retains exactly the drone-predicate entries of
the reference table, indexed by manufacturer/model code with the last entry
winning on duplicates: looking a code up returns the last retained entry
carrying that code, and every hit is a drone-typed entry of the table whose
code is the looked-up code. -/
theorem build_mfr_mdls_spec :
    (∀ (recs : List AcftRef) (code : String),
        build_mfr_mdls recs code =
          (recs.filter (fun mm => is_drone mm.type_acft mm.type_eng)).reverse.find?
            (fun mm => mm.code == code)) ∧
    (∀ (recs : List AcftRef) (code : String) (mm : AcftRef),
        build_mfr_mdls recs code = some mm →
          is_drone mm.type_acft mm.type_eng = true ∧ mm.code = code ∧ mm ∈ recs) := by
  have hmain : ∀ (recs : List AcftRef) (code : String),
      build_mfr_mdls recs code =
        (recs.filter (fun mm => is_drone mm.type_acft mm.type_eng)).reverse.find?
          (fun mm => mm.code == code) := by
    intro recs code
    have h := build_mfr_mdls_aux recs (fun _ => none) code
    unfold build_mfr_mdls
    rw [h]
    cases (recs.filter (fun mm => is_drone mm.type_acft mm.type_eng)).reverse.find?
        (fun mm => mm.code == code) with
    | some v => rfl
    | none => rfl
  refine ⟨hmain, ?_⟩
  intro recs code mm h
  rw [hmain recs code] at h
  have hq := List.find?_some h
  have hmem := List.mem_of_find?_eq_some h
  rw [List.mem_reverse, List.mem_filter] at hmem
  exact ⟨hmem.2, eq_of_beq hq, hmem.1⟩

/-- A drone-typed reference entry. -/
def acftRefA : AcftRef :=
  { code := "A1", mfr := "ACME", model := "FALCON", no_eng := "1",
    ac_weight := "CLASS1", type_acft := "6", type_eng := "10" }

/-- A second drone-typed reference entry with the same code as `acftRefA`. -/
def acftRefB : AcftRef :=
  { code := "A1", mfr := "BOLT", model := "HAWK", no_eng := "2",
    ac_weight := "CLASS2", type_acft := "6", type_eng := "10" }

/-- C4 witness: with two retained entries sharing code `"A1"`, the map holds
the later one. -/
theorem build_mfr_mdls_spec_witness :
    build_mfr_mdls [acftRefA, acftRefB] "A1" = some acftRefB := by
  rw [build_mfr_mdls_spec.1 [acftRefA, acftRefB] "A1"]
  decide

/-- Every row emitted for a `MASTER.txt` record ends with the empty cancel
date. -/
theorem projectMasterRow_getLast (mm : AcftRef) (ac : Master) (row : List String)
    (h : projectMasterRow mm ac = some row) : row.getLast? = some "" := by
  unfold projectMasterRow at h
  split at h
  · injection h with h
    subst h
    rfl
  · cases h

/-- C2: streaming the active-registrations table, a record's row is emitted
exactly when the record's own type fields pass the drone predicate and its
code hits the reference map; a record failing either test is skipped silently
(the run continues on the remaining records, with no error and no row), and
every emitted active-sourced row has an empty cancellation date. -/
theorem processMaster_spec (mfr_mdls : String → Option AcftRef) (recs : List Master) :
    (∀ (ac : Master) (rest : List Master),
        (is_drone ac.type_aircraft ac.type_engine = false ∨ mfr_mdls ac.mfr_mdl_code = none) →
        processMaster mfr_mdls (ac :: rest) = processMaster mfr_mdls rest) ∧
    (∀ rows, processMaster mfr_mdls recs = some rows →
        rows = recs.filterMap (fun ac =>
          if is_drone ac.type_aircraft ac.type_engine then
            (mfr_mdls ac.mfr_mdl_code).bind (fun mm => projectMasterRow mm ac)
          else none) ∧
        (∀ row ∈ rows, row.getLast? = some "")) := by
  constructor
  · intro ac rest h
    rcases h with h | h
    · simp [processMaster, h]
    · by_cases hd : is_drone ac.type_aircraft ac.type_engine
      · simp [processMaster, hd, h]
      · simp [processMaster, hd]
  · induction recs with
    | nil =>
        intro rows h
        injection h with h
        subst h
        exact ⟨rfl, by intro row hr; cases hr⟩
    | cons ac rest ih =>
        intro rows h
        by_cases hd : is_drone ac.type_aircraft ac.type_engine
        · rw [show processMaster mfr_mdls (ac :: rest) =
              (match mfr_mdls ac.mfr_mdl_code with
               | some mm =>
                   match projectMasterRow mm ac, processMaster mfr_mdls rest with
                   | some row, some rows => some (row :: rows)
                   | _, _ => none
               | none => processMaster mfr_mdls rest) from by
            simp [processMaster, hd]] at h
          cases hm : mfr_mdls ac.mfr_mdl_code with
          | none =>
              simp only [hm] at h
              obtain ⟨h1, h2⟩ := ih rows h
              refine ⟨?_, h2⟩
              rw [List.filterMap_cons]
              simp only [if_pos hd, hm, Option.bind]
              exact h1
          | some mm =>
              simp only [hm] at h
              cases hp : projectMasterRow mm ac with
              | none =>
                  simp only [hp] at h
                  exact Option.noConfusion h
              | some row =>
                  cases hr : processMaster mfr_mdls rest with
                  | none =>
                      simp only [hp, hr] at h
                      exact Option.noConfusion h
                  | some rows2 =>
                      simp only [hp, hr] at h
                      injection h with h
                      subst h
                      obtain ⟨h1, h2⟩ := ih rows2 hr
                      constructor
                      · rw [List.filterMap_cons]
                        simp only [if_pos hd, hm, Option.some_bind, hp]
                        rw [h1]
                      · intro r hr2
                        rcases List.mem_cons.mp hr2 with h3 | h3
                        · subst h3
                          exact projectMasterRow_getLast mm ac r hp
                        · exact h2 r h3
        · rw [show processMaster mfr_mdls (ac :: rest) = processMaster mfr_mdls rest from by
            simp [processMaster, hd]] at h
          obtain ⟨h1, h2⟩ := ih rows h
          refine ⟨?_, h2⟩
          rw [List.filterMap_cons]
          simp only [if_neg hd]
          exact h1

/-- A `MASTER.txt` drone record hitting the reference map under code `"A1"`. -/
def masterDrone : Master :=
  { n_number := "N100DR", serial_number := "S1", mode_s_code := "50000001",
    mode_s_code_hex := "A00001", mfr_mdl_code := "A1", type_aircraft := "6",
    type_engine := "10", type_registrant := "1", city := "SPRINGFIELD", state := "IL",
    zip_code := "123456789", status_code := "V", cert_issue_date := "20230115",
    air_worth_date := "20230116", last_action_date := "20230117" }

/-- A `MASTER.txt` record whose model code is in the map but whose own type
fields fail the drone predicate. -/
def masterPlane : Master :=
  { n_number := "N200AB", serial_number := "S2", mode_s_code := "50000002",
    mode_s_code_hex := "A00002", mfr_mdl_code := "A1", type_aircraft := "4",
    type_engine := "1", type_registrant := "3", city := "SPRINGFIELD", state := "IL",
    zip_code := "62701", status_code := "V", cert_issue_date := "20230115",
    air_worth_date := "20230116", last_action_date := "20230117" }

/-- The single output row `processMaster` emits for the two records above. -/
def masterRowOut : List String :=
  ["N100DR", "S1", "50000001", "A00001", "A1", "ACME", "FALCON", "1", "CLASS1",
   "Individual", "SPRINGFIELD", "IL", "12345-6789", "Valid", "2023-01-15",
   "2023-01-16", "2023-01-17", ""]

/-- C2 witness: the success characterization applied at a concrete run — one
drone record is joined and emitted (with empty cancel date), the non-drone
record with the same model code is excluded. -/
theorem processMaster_spec_witness : masterRowOut.getLast? = some "" :=
  ((processMaster_spec (build_mfr_mdls [acftRefA]) [masterDrone, masterPlane]).2
      [masterRowOut] (by decide)).2 masterRowOut (List.mem_singleton_self masterRowOut)

/-- Every row emitted for a `DEREG.txt` record ends with the record's
cancellation date as formatted by `format_date`. -/
theorem projectDeregRow_getLast (mm : AcftRef) (ac : Dereg) (row : List String)
    (h : projectDeregRow mm ac = some row) :
    row.getLast? = format_date (some ac.cancel_date) := by
  unfold projectDeregRow at h
  split at h
  · rename_i zipf cert airw lastAct cancel h1 h2 h3 h4 h5
    injection h with h
    subst h
    rw [h5]
    rfl
  · cases h

/-- C3: streaming the deregistered-aircraft table, no drone predicate is
applied to the record itself — a record's row is emitted exactly when its
manufacturer/model code hits the (already drone-filtered) reference map, a
miss is skipped silently, and every emitted row carries the record's
cancellation date reformatted by `format_date`. -/
theorem processDereg_spec (mfr_mdls : String → Option AcftRef) (recs : List Dereg) :
    (∀ (ac : Dereg) (rest : List Dereg), mfr_mdls ac.mfr_mdl_code = none →
        processDereg mfr_mdls (ac :: rest) = processDereg mfr_mdls rest) ∧
    (∀ (mm : AcftRef) (ac : Dereg) (row : List String),
        projectDeregRow mm ac = some row →
        row.getLast? = format_date (some ac.cancel_date)) ∧
    (∀ rows, processDereg mfr_mdls recs = some rows →
        rows = recs.filterMap (fun ac =>
          (mfr_mdls ac.mfr_mdl_code).bind (fun mm => projectDeregRow mm ac))) := by
  refine ⟨?_, ?_, ?_⟩
  · intro ac rest h
    simp [processDereg, h]
  · intro mm ac row h
    exact projectDeregRow_getLast mm ac row h
  · induction recs with
    | nil =>
        intro rows h
        injection h with h
        subst h
        rfl
    | cons ac rest ih =>
        intro rows h
        simp only [processDereg] at h
        cases hm : mfr_mdls ac.mfr_mdl_code with
        | none =>
            simp only [hm] at h
            rw [List.filterMap_cons]
            simp only [hm, Option.none_bind]
            exact ih rows h
        | some mm =>
            simp only [hm] at h
            cases hp : projectDeregRow mm ac with
            | none =>
                simp only [hp] at h
                exact Option.noConfusion h
            | some row =>
                cases hr : processDereg mfr_mdls rest with
                | none =>
                    simp only [hp, hr] at h
                    exact Option.noConfusion h
                | some rows2 =>
                    simp only [hp, hr] at h
                    injection h with h
                    subst h
                    rw [List.filterMap_cons]
                    simp only [hm, Option.some_bind, hp]
                    rw [ih rows2 hr]

/-- A `DEREG.txt` record hitting the reference map under code `"A1"`. -/
def deregEx : Dereg :=
  { n_number := "N100DR", serial_number := "S1", mode_s_code := "50000001",
    mode_s_code_hex := "A00001", mfr_mdl_code := "A1", indicator_group := "1",
    city_mail := "SPRINGFIELD", state_abbrev_mail := "IL", zip_code_mail := "62701",
    status_code := "13", cert_issue_date := "20230115", air_worth_date := "20230116",
    last_act_date := "20230117", cancel_date := "20220101" }

/-- The output row emitted for `deregEx` joined with `acftRefA`. -/
def deregRowOut : List String :=
  ["N100DR", "S1", "50000001", "A00001", "A1", "ACME", "FALCON", "1", "CLASS1",
   "Individual", "SPRINGFIELD", "IL", "62701", "Registration Expired", "2023-01-15",
   "2023-01-16", "2023-01-17", "2022-01-01"]

/-- C3 witness: the populated-cancellation-date property applied at a
concrete joined record. -/
theorem processDereg_spec_witness :
    deregRowOut.getLast? = format_date (some deregEx.cancel_date) :=
  (processDereg_spec (build_mfr_mdls [acftRefA]) []).2.1 acftRefA deregEx deregRowOut
    (by decide)

end Dronereg
